import Mathlib

/-!
Shallow embedding of the token/authentication subsystem of this repository:
`app/auth/jwt.py` (token issuance, verification, current-user resolution) and
`app/auth/security.py` (password hashing).  Components of the repository that
are referenced but absent from the sources (the configuration object, the
token-type enum, the revocation store, the user model) are modelled from the
spec and marked as such on their definitions.  Timestamps are seconds since
the epoch as integers; the signature of a JOSE token is modelled as the key
the token was signed with, so that signature verification is key equality.
-/

deriving instance DecidableEq for Except

namespace AuthSpec

/-- Modelled from the spec: the token-type enum of `app/schemas/token.py`,
which is absent from the sources.  Two members, ACCESS and REFRESH; the
member values are the strings that `create_token` stores in the payload
`type` claim and `decode_token` compares against it. -/
inductive TokenType where
  | access
  | refresh
deriving DecidableEq, Repr

/-- The `.value` of a `TokenType` member, as read by `create_token`
(`token_type.value`) and `decode_token`. -/
def TokenType.value : TokenType → String
  | .access => "access"
  | .refresh => "refresh"

/-- Modelled from the spec: the configuration surface of `app/core/config.py`,
which is absent from the sources — the legacy single secret, the two
independent token secrets, and the default TTLs (`ACCESS_SECRET`,
`REFRESH_SECRET`, `ACCESS_TTL_MINUTES`, `REFRESH_TTL_DAYS` in the spec,
under the attribute names the code reads). -/
structure Settings where
  SECRET_KEY : String
  JWT_SECRET_KEY : String
  JWT_REFRESH_SECRET_KEY : String
  ACCESS_TOKEN_EXPIRE_MINUTES : Int
  REFRESH_TOKEN_EXPIRE_DAYS : Int
deriving DecidableEq, Repr

/-- A decoded claim set: the claims that `create_token`,
`create_access_token` and `decode_token` read or write.  A missing claim is
`none`, mirroring Python `payload.get(key)` returning `None` and
`payload[key]` raising `KeyError`.  Extra claims a caller may place in the
dict passed to `create_access_token` are not consulted by the subsystem and
are omitted. -/
structure Payload where
  sub : Option String
  type : Option String
  exp : Option Int
  iat : Option Int
  jti : Option String
deriving DecidableEq, Repr

/-- An encoded wire token: its claim set together with the key it was signed
with.  `jose.jwt.encode(claims, key)` is modelled as pairing the claims with
the key, and the signature check of `jose.jwt.decode` as equality of that key
with the verification key. -/
structure Token where
  payload : Payload
  secret : String
deriving DecidableEq, Repr

/-- The errors `jose.jwt.decode` can raise that `decode_token` handles:
`ExpiredSignatureError` for an `exp` claim in the past, and any other
`JWTError` — in this model, a signature that the given key does not
validate. -/
inductive JoseError where
  | expiredSignature
  | jwtError
deriving DecidableEq, Repr

/-- The expiry test of `jose.jwt.decode`: a payload is expired exactly when it
carries an `exp` claim strictly less than the current time; a payload with no
`exp` claim is not expired. -/
def expClaimExpired (p : Payload) (now : Int) : Bool :=
  match p.exp with
  | some e => decide (e < now)
  | none => false

/-- The combined expiry gate of `jose.jwt.decode`: the `exp` claim is
rejected exactly when expiry verification is enabled and the claim has
passed. -/
def expiryGate (verify_exp : Bool) (p : Payload) (now : Int) : Bool :=
  verify_exp && expClaimExpired p now

/-- `jose.jwt.decode(token, key, algorithms, options)` with
`options.verify_exp = verify_exp`: the signature is checked first (mismatch is
a `JWTError`), then, when `verify_exp` is set, the `exp` claim
(`ExpiredSignatureError`); on success the claim set is returned. -/
def jwtDecode (tok : Token) (key : String) (verify_exp : Bool) (now : Int) :
    Except JoseError Payload :=
  if tok.secret ≠ key then
    .error .jwtError
  else if expiryGate verify_exp tok.payload now then
    .error .expiredSignature
  else
    .ok tok.payload

/-- An exception escaping `decode_token` or `get_current_user`: either a
`fastapi.HTTPException` with its status code and detail string, or an uncaught
Python `KeyError` carrying the missing key. -/
inductive AuthError where
  | httpException (statusCode : Int) (detail : String)
  | keyError (key : String)
deriving DecidableEq, Repr

/-- Modelled from the spec: `is_blacklisted` of `app/auth/redis.py`, which is
absent from the sources.  The Revocation Store is a denylist of token ids and
`contains(token_id)` is boolean membership; the store state is the list of
revoked ids. -/
def is_blacklisted (blacklist : List String) (jti : String) : Bool :=
  blacklist.contains jti

/-- The secret-selection expression written out twice in `app/auth/jwt.py`
(`create_token` and `decode_token`): `JWT_SECRET_KEY` for ACCESS,
`JWT_REFRESH_SECRET_KEY` for REFRESH. -/
def secretFor (settings : Settings) (token_type : TokenType) : String :=
  if token_type = .access then settings.JWT_SECRET_KEY
  else settings.JWT_REFRESH_SECRET_KEY

/-- Python truthiness of an optional duration (`if expires_delta:` /
`if expires_minutes:`): `None` and the zero duration are falsy, every nonzero
duration — negative ones included — is truthy. -/
def timedeltaTruthy : Option Int → Bool
  | some d => decide (d ≠ 0)
  | none => false

/-- The `expire` computation of `create_token`: `now + expires_delta` when the
delta is truthy, otherwise the configured default for the token type —
`ACCESS_TOKEN_EXPIRE_MINUTES` minutes for ACCESS, `REFRESH_TOKEN_EXPIRE_DAYS`
days for REFRESH.  The delta is in seconds. -/
def tokenExpiry (settings : Settings) (token_type : TokenType)
    (expires_delta : Option Int) (now : Int) : Int :=
  if timedeltaTruthy expires_delta then
    now + expires_delta.getD 0
  else if token_type = .access then
    now + settings.ACCESS_TOKEN_EXPIRE_MINUTES * 60
  else
    now + settings.REFRESH_TOKEN_EXPIRE_DAYS * 86400

/-- A `user_id` argument of `create_token` (`Union[str, UUID]`); a UUID is
carried as its canonical string form, which is what `str(user_id)`
produces. -/
inductive UserId where
  | str (s : String)
  | uuid (canonical : String)
deriving DecidableEq, Repr

/-- The stringification `create_token` applies: a `str` passes through, a
UUID becomes its canonical string. -/
def UserId.toStr : UserId → String
  | .str s => s
  | .uuid c => c

/-- `create_token(user_id, token_type, expires_delta)` from `app/auth/jwt.py`:
builds the payload `sub` (stringified user id), `type` (the member value),
`exp` (per `tokenExpiry`), `iat` (issuance time) and a fresh `jti`, and signs
it with the secret selected by the token type.  The fresh random hex `jti`
and the issuance clock reading are parameters of the model. -/
def create_token (settings : Settings) (user_id : UserId)
    (token_type : TokenType) (expires_delta : Option Int) (now : Int)
    (jti : String) : Token :=
  { payload :=
      { sub := some user_id.toStr
        type := some token_type.value
        exp := some (tokenExpiry settings token_type expires_delta now)
        iat := some now
        jti := some jti }
    secret := secretFor settings token_type }

/-- The `expire` computation of `create_access_token`: `now` plus
`expires_minutes` minutes when that argument is truthy (`if expires_minutes:`),
otherwise plus the configured `ACCESS_TOKEN_EXPIRE_MINUTES`. -/
def accessTokenExpiry (settings : Settings) (expires_minutes : Option Int)
    (now : Int) : Int :=
  if timedeltaTruthy expires_minutes then
    now + expires_minutes.getD 0 * 60
  else
    now + settings.ACCESS_TOKEN_EXPIRE_MINUTES * 60

/-- `create_access_token(data, expires_minutes)` from `app/auth/jwt.py`, the
simplified helper: copies the caller's claim dict, overwrites `exp`
(per `accessTokenExpiry`) and `iat`, and signs with the legacy `SECRET_KEY`.
It adds no `type` and no `jti` claim beyond what `data` already holds. -/
def create_access_token (settings : Settings) (data : Payload)
    (expires_minutes : Option Int) (now : Int) : Token :=
  { payload :=
      { data with
        exp := some (accessTokenExpiry settings expires_minutes now)
        iat := some now }
    secret := settings.SECRET_KEY }

/-- `decode_token(token, token_type, verify_exp)` from `app/auth/jwt.py`:
decodes with the secret selected by the expected type, mapping
`ExpiredSignatureError` to 401 "Token has expired" and any other `JWTError`
to 401 "Could not validate credentials"; on decode success it rejects a
payload whose `type` claim differs from the expected member value with
401 "Invalid token type", then reads `payload["jti"]` — a missing `jti` is a
raw `KeyError`, which neither `except` clause catches — and rejects a
blacklisted id with 401 "Token has been revoked"; otherwise it returns the
payload. -/
def decode_token (settings : Settings) (blacklist : List String)
    (token : Token) (token_type : TokenType) (verify_exp : Bool) (now : Int) :
    Except AuthError Payload :=
  match jwtDecode token (secretFor settings token_type) verify_exp now with
  | .error .expiredSignature =>
      .error (.httpException 401 "Token has expired")
  | .error .jwtError =>
      .error (.httpException 401 "Could not validate credentials")
  | .ok payload =>
      if payload.type ≠ some token_type.value then
        .error (.httpException 401 "Invalid token type")
      else
        match payload.jti with
        | none => .error (.keyError "jti")
        | some jti =>
            if is_blacklisted blacklist jti then
              .error (.httpException 401 "Token has been revoked")
            else
              .ok payload

/-- Modelled from the spec: the user record of `app/models/user.py`, which is
absent from the sources; the persistence collaborator returns an object
exposing at least `id` and `is_active`. -/
structure User where
  id : String
  is_active : Bool
deriving DecidableEq, Repr

/-- The apostrophe character, as Python `repr` uses around a `KeyError`
key. -/
def pyQuote : String := String.mk [Char.ofNat 39]

/-- Python `str(e)` for the exceptions `get_current_user` can catch: a
`fastapi.HTTPException` renders as "statusCode: detail", a `KeyError` renders
its key quoted. -/
def AuthError.str : AuthError → String
  | .httpException c d => toString c ++ ": " ++ d
  | .keyError k => pyQuote ++ k ++ pyQuote

/-- `get_current_user(token, db)` from `app/auth/jwt.py`: decodes the bearer
token as ACCESS, reads `payload["sub"]` (a `KeyError` when absent), looks the
user up by id in the database, raises 404 "User not found" when no record
matches and 400 "Inactive user" when the record is inactive, else returns the
user; the surrounding `except Exception` rewraps every one of those
exceptions as a 401 whose detail is `str(e)`.  The database is modelled as
the lookup function the query performs. -/
def get_current_user (settings : Settings) (blacklist : List String)
    (db : String → Option User) (token : Token) (now : Int) :
    Except AuthError User :=
  let inner : Except AuthError User :=
    match decode_token settings blacklist token .access true now with
    | .error e => .error e
    | .ok payload =>
        match payload.sub with
        | none => .error (.keyError "sub")
        | some user_id =>
            match db user_id with
            | none => .error (.httpException 404 "User not found")
            | some user =>
                if !user.is_active then
                  .error (.httpException 400 "Inactive user")
                else
                  .ok user
  match inner with
  | .ok u => .ok u
  | .error e => .error (.httpException 401 (AuthError.str e))

/-- The digest computation of the bcrypt backend, abstracted to a concrete
function of the cost, the salt and the plaintext.  The claims verified here
do not depend on the internals of the key-derivation function, only on the
digest being re-derivable from these three inputs. -/
def bcryptDigest (rounds : Nat) (salt : String) (plain : String) : String :=
  toString rounds ++ "$" ++ salt ++ "$" ++ plain

/-- A well-formed bcrypt modular-crypt string, structurally: its cost
parameter, salt and digest. -/
structure BcryptRecord where
  rounds : Nat
  salt : String
  digest : String
deriving DecidableEq, Repr

/-- A `hashed` argument of `verify_password`: either a string passlib
identifies as a bcrypt hash, or any other (malformed) string. -/
inductive HashString where
  | bcrypt (rec : BcryptRecord)
  | malformed (raw : String)
deriving DecidableEq, Repr

/-- The error of `passlib.context.CryptContext` relevant here:
`UnknownHashError`, a `ValueError`, raised when the hash string matches none
of the configured schemes. -/
inductive PasslibError where
  | unknownHashError
deriving DecidableEq, Repr

/-- `CryptContext(schemes=["bcrypt"]).verify(plain, hashed)` from passlib, as
configured in `app/auth/security.py`: it first identifies the hash; a string
not identifiable as a bcrypt hash raises `UnknownHashError`; on a well-formed
hash it re-derives the digest under the stored salt and cost and compares in
constant time. -/
def cryptContextVerify (plain : String) (hashed : HashString) :
    Except PasslibError Bool :=
  match hashed with
  | .malformed _ => .error .unknownHashError
  | .bcrypt rec => .ok (rec.digest == bcryptDigest rec.rounds rec.salt plain)

/-- `verify_password(plain, hashed)` from `app/auth/security.py`: a direct
`return pwd_context.verify(plain, hashed)` with no exception handling of its
own. -/
def verify_password (plain : String) (hashed : HashString) :
    Except PasslibError Bool :=
  cryptContextVerify plain hashed

/-- A concrete configuration with distinct access and refresh secrets, as the
dual-secret design prescribes; used by the concrete instances below. -/
def testSettings : Settings :=
  { SECRET_KEY := "legacy"
    JWT_SECRET_KEY := "accesskey"
    JWT_REFRESH_SECRET_KEY := "refreshkey"
    ACCESS_TOKEN_EXPIRE_MINUTES := 15
    REFRESH_TOKEN_EXPIRE_DAYS := 7 }

/-- A concrete configuration in which the legacy `SECRET_KEY` coincides with
`JWT_SECRET_KEY`, so tokens of the simplified helper verify under the
advanced decoder. -/
def sharedSecretSettings : Settings :=
  { SECRET_KEY := "shared"
    JWT_SECRET_KEY := "shared"
    JWT_REFRESH_SECRET_KEY := "refreshkey"
    ACCESS_TOKEN_EXPIRE_MINUTES := 15
    REFRESH_TOKEN_EXPIRE_DAYS := 7 }

/-- The invariant claimed of issued tokens: the payload carries both
timestamps and `exp` is strictly later than `iat`. -/
def expGtIat (tok : Token) : Bool :=
  match tok.payload.exp, tok.payload.iat with
  | some e, some i => decide (i < e)
  | _, _ => false

/-- C1 counterexample: under the prescribed configuration with distinct
access and refresh secrets, an access token issued by `create_token` and
decoded with expected type REFRESH does not fail with "Invalid token type";
it fails with the signature error "Could not validate credentials", because
`decode_token` verifies the signature against the refresh secret before ever
reaching the type-claim check. -/
theorem c1_counterexample :
    decode_token testSettings []
        (create_token testSettings (.str "alice") .access none 0 "j1")
        .refresh true 0
      ≠ .error (.httpException 401 "Invalid token type") ∧
    decode_token testSettings []
        (create_token testSettings (.str "alice") .access none 0 "j1")
        .refresh true 0
      = .error (.httpException 401 "Could not validate credentials") := by
  decide

/-- C1 (amended): an access token issued by `create_token` and decoded with
expected type REFRESH never succeeds, but the failure kind depends on the
configuration: with distinct secrets it is the signature error "Could not
validate credentials"; only when `JWT_SECRET_KEY` equals
`JWT_REFRESH_SECRET_KEY` does the payload type-claim check fire and report
"Invalid token type" (for a token not already expired at decode time). -/
theorem c1_wrong_type_decode (s : Settings) (bl : List String) (uid : UserId)
    (d : Option Int) (now now2 : Int) (jti : String) :
    (s.JWT_SECRET_KEY ≠ s.JWT_REFRESH_SECRET_KEY →
      decode_token s bl (create_token s uid .access d now jti) .refresh true now2
        = .error (.httpException 401 "Could not validate credentials")) ∧
    (s.JWT_SECRET_KEY = s.JWT_REFRESH_SECRET_KEY →
      expClaimExpired (create_token s uid .access d now jti).payload now2 = false →
      decode_token s bl (create_token s uid .access d now jti) .refresh true now2
        = .error (.httpException 401 "Invalid token type")) := by
  constructor
  · intro h
    simp [decode_token, jwtDecode, create_token, secretFor, h]
  · intro h hexp
    have hg : expiryGate true
        (create_token s uid .access d now jti).payload now2 = false := by
      simpa [expiryGate] using hexp
    simp only [create_token, TokenType.value] at hg
    simp [decode_token, jwtDecode, create_token, secretFor, h, hg,
      TokenType.value]

/-- C1 witness: the amended theorem applied at the concrete distinct-secret
configuration. -/
theorem c1_witness :
    decode_token testSettings []
        (create_token testSettings (.str "bob") .access none 0 "w1")
        .refresh true 0
      = .error (.httpException 401 "Could not validate credentials") :=
  (c1_wrong_type_decode testSettings [] (.str "bob") none 0 0 "w1").1
    (by decide)

/-- C2 counterexample: a token whose `jti` is in the revocation store but
whose `exp` has passed is reported as "Token has expired", not
"Token has been revoked", by a default (`verify_exp = true`) `decode_token`
call: the expiry check inside `jose.jwt.decode` fires before the store is
consulted. -/
theorem c2_counterexample :
    decode_token testSettings ["j2"]
        (create_token testSettings (.str "alice") .access none 0 "j2")
        .access true 10000
      ≠ .error (.httpException 401 "Token has been revoked") ∧
    decode_token testSettings ["j2"]
        (create_token testSettings (.str "alice") .access none 0 "j2")
        .access true 10000
      = .error (.httpException 401 "Token has expired") := by
  decide

/-- C2 (amended): while a revoked token is unexpired (or whenever expiry
verification is disabled), every `decode_token` call on it reports
"Token has been revoked"; once `expires_at` has passed, a call with
`verify_exp = true` reports "Token has expired" instead — the revocation
record no longer decides the outcome. -/
theorem c2_revoked_reporting (s : Settings) (bl : List String) (uid : UserId)
    (tt : TokenType) (d : Option Int) (now now2 : Int) (jti : String)
    (verify_exp : Bool) :
    is_blacklisted bl jti = true →
    (expiryGate verify_exp (create_token s uid tt d now jti).payload now2
        = false →
      decode_token s bl (create_token s uid tt d now jti) tt verify_exp now2
        = .error (.httpException 401 "Token has been revoked")) ∧
    (verify_exp = true →
      expClaimExpired (create_token s uid tt d now jti).payload now2 = true →
      decode_token s bl (create_token s uid tt d now jti) tt verify_exp now2
        = .error (.httpException 401 "Token has expired")) := by
  intro hbl
  constructor
  · intro hexp
    simp only [create_token] at hexp
    simp [decode_token, jwtDecode, create_token, hexp, hbl]
  · intro hv hexp
    have hg : expiryGate verify_exp
        (create_token s uid tt d now jti).payload now2 = true := by
      simp [expiryGate, hv, hexp]
    simp only [create_token] at hg
    simp [decode_token, jwtDecode, create_token, hg]

/-- C2 witness: the amended theorem applied concretely — the same revoked
token is reported revoked before expiry and expired afterwards. -/
theorem c2_witness :
    decode_token testSettings ["w2"]
        (create_token testSettings (.str "bob") .access none 0 "w2")
        .access true 100
      = .error (.httpException 401 "Token has been revoked") ∧
    decode_token testSettings ["w2"]
        (create_token testSettings (.str "bob") .access none 0 "w2")
        .access true 10000
      = .error (.httpException 401 "Token has expired") :=
  ⟨(c2_revoked_reporting testSettings ["w2"] (.str "bob") .access none 0 100
      "w2" true (by decide)).1 (by decide),
   (c2_revoked_reporting testSettings ["w2"] (.str "bob") .access none 0 10000
      "w2" true (by decide)).2 rfl (by decide)⟩

/-- C3: a signature-valid token whose `exp` claim lies strictly in the past
fails a `verify_exp = true` `decode_token` call with "Token has expired",
for every state of the revocation store: the expiry check inside
`jose.jwt.decode` short-circuits the blacklist lookup (the conclusion does
not depend on the quantified blacklist). -/
theorem c3_expired_shortcircuits (s : Settings) (bl : List String)
    (tok : Token) (tt : TokenType) (now e : Int) :
    tok.secret = secretFor s tt →
    tok.payload.exp = some e →
    e < now →
    decode_token s bl tok tt true now
      = .error (.httpException 401 "Token has expired") := by
  intro h1 h2 h3
  simp [decode_token, jwtDecode, expiryGate, expClaimExpired, h1, h2, h3]

/-- C3 witness: an expired token whose own `jti` is in the revocation store
is still reported expired. -/
theorem c3_witness :
    decode_token testSettings ["w3"]
        { payload := { sub := some "s", type := some "access", exp := some 10,
                       iat := some 0, jti := some "w3" }
          secret := "accesskey" }
        .access true 100
      = .error (.httpException 401 "Token has expired") :=
  c3_expired_shortcircuits testSettings ["w3"]
    { payload := { sub := some "s", type := some "access", exp := some 10,
                   iat := some 0, jti := some "w3" }
      secret := "accesskey" }
    .access 100 10 rfl rfl (by decide)

/-- C4: an issued token whose `jti` has been added to the revocation store
and that has not yet expired at decode time (or is decoded with expiry
verification off) fails `decode_token` at its own type with
"Token has been revoked". -/
theorem c4_revoked_before_expiry (s : Settings) (bl : List String)
    (uid : UserId) (tt : TokenType) (d : Option Int) (now now2 : Int)
    (jti : String) (verify_exp : Bool) :
    is_blacklisted bl jti = true →
    expiryGate verify_exp (create_token s uid tt d now jti).payload now2
      = false →
    decode_token s bl (create_token s uid tt d now jti) tt verify_exp now2
      = .error (.httpException 401 "Token has been revoked") := by
  intro hbl hexp
  simp only [create_token] at hexp
  simp [decode_token, jwtDecode, create_token, hexp, hbl]

/-- C4 witness: a freshly issued, revoked, unexpired token is rejected as
revoked. -/
theorem c4_witness :
    decode_token testSettings ["w4"]
        (create_token testSettings (.str "bob") .refresh none 0 "w4")
        .refresh true 100
      = .error (.httpException 401 "Token has been revoked") :=
  c4_revoked_before_expiry testSettings ["w4"] (.str "bob") .refresh none 0 100
    "w4" true (by decide) (by decide)

/-- C5: an access token freshly produced by `create_token`, decoded as ACCESS
while unrevoked and unexpired, succeeds and its `sub` claim is the original
subject, stringified when it was a UUID. -/
theorem c5_issue_verify_roundtrip (s : Settings) (bl : List String)
    (uid : UserId) (d : Option Int) (now now2 : Int) (jti : String) :
    is_blacklisted bl jti = false →
    expClaimExpired (create_token s uid .access d now jti).payload now2 = false →
    decode_token s bl (create_token s uid .access d now jti) .access true now2
      = .ok (create_token s uid .access d now jti).payload ∧
    (create_token s uid .access d now jti).payload.sub = some uid.toStr := by
  intro hbl hexp
  have hg : expiryGate true
      (create_token s uid .access d now jti).payload now2 = false := by
    simpa [expiryGate] using hexp
  simp only [create_token] at hg
  constructor
  · simp [decode_token, jwtDecode, create_token, hg, hbl]
  · simp [create_token]

/-- C5 witness: a round trip at a concrete UUID subject, decoded at the last
unexpired instant. -/
theorem c5_witness :
    decode_token testSettings []
        (create_token testSettings
          (.uuid "11111111-2222-3333-4444-555555555555") .access none 0 "w5")
        .access true 900
      = .ok (create_token testSettings
          (.uuid "11111111-2222-3333-4444-555555555555") .access none 0
          "w5").payload ∧
    (create_token testSettings
        (.uuid "11111111-2222-3333-4444-555555555555") .access none 0
        "w5").payload.sub
      = some "11111111-2222-3333-4444-555555555555" :=
  c5_issue_verify_roundtrip testSettings []
    (.uuid "11111111-2222-3333-4444-555555555555") none 0 900 "w5"
    (by decide) (by decide)

/-- C6: `get_current_user` first verifies the bearer token as ACCESS — any
verification failure is surfaced (rewrapped by the catch-all handler as a 401
carrying the stringified exception); on verification success it fails with
the UserNotFound kind (404 "User not found", rewrapped) when no record
matches the `sub` claim, with the InactiveAccount kind (400 "Inactive user",
rewrapped) when the record is inactive, and otherwise returns the user. -/
theorem c6_resolve_current_user (s : Settings) (bl : List String)
    (db : String → Option User) (tok : Token) (now : Int) (uid : String) :
    (∀ e, decode_token s bl tok .access true now = .error e →
      get_current_user s bl db tok now
        = .error (.httpException 401 (AuthError.str e))) ∧
    (∀ p, decode_token s bl tok .access true now = .ok p →
      p.sub = some uid →
      ((db uid = none →
          get_current_user s bl db tok now
            = .error (.httpException 401 "404: User not found")) ∧
       (∀ u, db uid = some u → u.is_active = false →
          get_current_user s bl db tok now
            = .error (.httpException 401 "400: Inactive user")) ∧
       (∀ u, db uid = some u → u.is_active = true →
          get_current_user s bl db tok now = .ok u))) := by
  constructor
  · intro e he
    simp [get_current_user, he]
  · intro p hp hsub
    refine ⟨?_, ?_, ?_⟩
    · intro hdb
      simp [get_current_user, hp, hsub, hdb, AuthError.str, pyQuote]
      rfl
    · intro u hdb hact
      simp [get_current_user, hp, hsub, hdb, hact, AuthError.str, pyQuote]
      rfl
    · intro u hdb hact
      simp [get_current_user, hp, hsub, hdb, hact]

/-- C6 witness: the resolution theorem applied at a concrete active user, a
concrete absent user, and a concrete inactive user. -/
theorem c6_witness :
    get_current_user testSettings []
        (fun i => if i = "carol" then some { id := "carol", is_active := true }
          else none)
        (create_token testSettings (.str "carol") .access none 0 "w6") 0
      = .ok { id := "carol", is_active := true } ∧
    get_current_user testSettings [] (fun _ => none)
        (create_token testSettings (.str "carol") .access none 0 "w6") 0
      = .error (.httpException 401 "404: User not found") ∧
    get_current_user testSettings []
        (fun _ => some { id := "carol", is_active := false })
        (create_token testSettings (.str "carol") .access none 0 "w6") 0
      = .error (.httpException 401 "400: Inactive user") :=
  ⟨((c6_resolve_current_user testSettings []
        (fun i => if i = "carol" then some { id := "carol", is_active := true }
          else none)
        (create_token testSettings (.str "carol") .access none 0 "w6") 0
        "carol").2
      (create_token testSettings (.str "carol") .access none 0 "w6").payload
      (by decide) rfl).2.2 { id := "carol", is_active := true } (by decide)
      rfl,
   ((c6_resolve_current_user testSettings [] (fun _ => none)
        (create_token testSettings (.str "carol") .access none 0 "w6") 0
        "carol").2
      (create_token testSettings (.str "carol") .access none 0 "w6").payload
      (by decide) rfl).1 rfl,
   ((c6_resolve_current_user testSettings []
        (fun _ => some { id := "carol", is_active := false })
        (create_token testSettings (.str "carol") .access none 0 "w6") 0
        "carol").2
      (create_token testSettings (.str "carol") .access none 0 "w6").payload
      (by decide) rfl).2.1 { id := "carol", is_active := false } rfl rfl⟩

/-- C7 counterexample: on a concrete malformed hash string,
`verify_password` does not return false — it propagates passlib's
`UnknownHashError`, since `app/auth/security.py` delegates to
`pwd_context.verify` with no exception handling. -/
theorem c7_counterexample :
    verify_password "pw" (.malformed "nothash") ≠ .ok false ∧
    verify_password "pw" (.malformed "nothash")
      = .error .unknownHashError := by
  decide

/-- C7 (amended): for every plaintext and every malformed hash string,
`verify_password` raises (propagates `UnknownHashError`) rather than
returning false; only a well-formed bcrypt hash can make it return a
boolean. -/
theorem c7_malformed_raises (plain raw : String) :
    verify_password plain (.malformed raw) = .error .unknownHashError :=
  rfl

/-- C8 counterexample: `create_token` called with a zero `expires_delta` at
issuance time 0 does not set `expires_at` to the issuance time plus the
supplied delta (which would be 0); the Python truthiness test
`if expires_delta:` treats the zero timedelta as absent and the configured
default of 15 minutes applies. -/
theorem c8_counterexample :
    (create_token testSettings (.str "alice") .access (some 0) 0
        "j5").payload.exp ≠ some 0 ∧
    (create_token testSettings (.str "alice") .access (some 0) 0
        "j5").payload.exp = some 900 := by
  decide

/-- C8 (amended): a truthy (nonzero) `expires_delta` replaces the default —
`expires_at` is the issuance time plus the supplied delta, and likewise a
nonzero `expires_minutes` for `create_access_token`; a zero override is
falsy and yields exactly the token the default configuration yields. -/
theorem c8_ttl_override (s : Settings) (uid : UserId) (tt : TokenType)
    (d m now : Int) (jti : String) (data : Payload) :
    (d ≠ 0 →
      (create_token s uid tt (some d) now jti).payload.exp
        = some (now + d)) ∧
    ((create_token s uid tt (some 0) now jti).payload.exp
        = (create_token s uid tt none now jti).payload.exp) ∧
    (m ≠ 0 →
      (create_access_token s data (some m) now).payload.exp
        = some (now + m * 60)) ∧
    ((create_access_token s data (some 0) now).payload.exp
        = (create_access_token s data none now).payload.exp) := by
  refine ⟨?_, ?_, ?_, ?_⟩
  · intro hd
    simp [create_token, tokenExpiry, timedeltaTruthy, hd]
  · simp [create_token, tokenExpiry, timedeltaTruthy]
  · intro hm
    simp [create_access_token, accessTokenExpiry, timedeltaTruthy, hm]
  · simp [create_access_token, accessTokenExpiry, timedeltaTruthy]

/-- C8 witness: a nonzero override of 5 seconds, and a nonzero
`expires_minutes` of 2 minutes, replace the defaults. -/
theorem c8_witness :
    (create_token testSettings (.str "dave") .access (some 5) 7
        "w8").payload.exp = some 12 ∧
    (create_access_token testSettings
        { sub := some "d", type := none, exp := none, iat := none,
          jti := none } (some 2) 7).payload.exp = some 127 :=
  ⟨(c8_ttl_override testSettings (.str "dave") .access 5 2 7 "w8"
      { sub := some "d", type := none, exp := none, iat := none,
        jti := none }).1 (by decide),
   (c8_ttl_override testSettings (.str "dave") .access 5 2 7 "w8"
      { sub := some "d", type := none, exp := none, iat := none,
        jti := none }).2.2.1 (by decide)⟩

/-- C9 counterexample: `create_token` accepts a negative `expires_delta` and
then issues a token whose `exp` precedes its `iat`: with delta −60 at
issuance time 1000 the payload carries `exp` 940 and `iat` 1000, violating
the claimed invariant. -/
theorem c9_counterexample :
    expGtIat (create_token testSettings (.str "alice") .access (some (-60))
        1000 "j6") = false ∧
    (create_token testSettings (.str "alice") .access (some (-60)) 1000
        "j6").payload.exp = some 940 ∧
    (create_token testSettings (.str "alice") .access (some (-60)) 1000
        "j6").payload.iat = some 1000 := by
  decide

/-- C9 (amended): every token issued with a positive `expires_delta`, and
every token issued without an override under positive configured TTLs,
satisfies `exp > iat`; a negative override violates the invariant. -/
theorem c9_exp_after_iat (s : Settings) (uid : UserId) (tt : TokenType)
    (d now : Int) (jti : String) :
    (0 < d → expGtIat (create_token s uid tt (some d) now jti) = true) ∧
    (0 < s.ACCESS_TOKEN_EXPIRE_MINUTES →
      expGtIat (create_token s uid .access none now jti) = true) ∧
    (0 < s.REFRESH_TOKEN_EXPIRE_DAYS →
      expGtIat (create_token s uid .refresh none now jti) = true) := by
  refine ⟨?_, ?_, ?_⟩
  · intro hd
    have hne : d ≠ 0 := by omega
    simp [expGtIat, create_token, tokenExpiry, timedeltaTruthy, hne]
    omega
  · intro h
    simp [expGtIat, create_token, tokenExpiry, timedeltaTruthy]
    omega
  · intro h
    simp [expGtIat, create_token, tokenExpiry, timedeltaTruthy]
    omega

/-- C9 witness: the amended invariant at a positive override and at both
default TTLs of the concrete configuration. -/
theorem c9_witness :
    expGtIat (create_token testSettings (.str "eve") .access (some 60) 50
        "w9") = true ∧
    expGtIat (create_token testSettings (.str "eve") .access none 50 "w9")
      = true ∧
    expGtIat (create_token testSettings (.str "eve") .refresh none 50 "w9")
      = true :=
  ⟨(c9_exp_after_iat testSettings (.str "eve") .access 60 50 "w9").1
      (by decide),
   (c9_exp_after_iat testSettings (.str "eve") .access 60 50 "w9").2.1
      (by decide),
   (c9_exp_after_iat testSettings (.str "eve") .access 60 50 "w9").2.2
      (by decide)⟩

/-- C10: a concrete token that is signature-valid under the expected type's
secret (the simplified helper's `SECRET_KEY` coincides with
`JWT_SECRET_KEY`), unexpired, and type-correct, but carries no `jti` claim —
produced by `create_access_token` on a claim dict that already holds a
`type` claim — makes `decode_token` raise an uncaught `KeyError` on
`payload["jti"]` instead of any authentication-rejection `HTTPException`. -/
theorem c10_missing_jti_keyerror :
    (create_access_token sharedSecretSettings
        { sub := some "u1", type := some "access", exp := none, iat := none,
          jti := none } none 0).secret
      = sharedSecretSettings.JWT_SECRET_KEY ∧
    expClaimExpired (create_access_token sharedSecretSettings
        { sub := some "u1", type := some "access", exp := none, iat := none,
          jti := none } none 0).payload 0 = false ∧
    (create_access_token sharedSecretSettings
        { sub := some "u1", type := some "access", exp := none, iat := none,
          jti := none } none 0).payload.jti = none ∧
    decode_token sharedSecretSettings []
        (create_access_token sharedSecretSettings
          { sub := some "u1", type := some "access", exp := none, iat := none,
            jti := none } none 0)
        .access true 0
      = .error (.keyError "jti") := by
  decide

end AuthSpec
